import Mathlib

/-!
Verification development for the Layer1 backend (asynchronous resume / job /
match orchestration core). The definitions below are a shallow embedding of
the JavaScript source: SQL statements become pure functions over lists of
row structures, the BullMQ processors become pure functions of the outcomes
of their effectful steps, and the in-process event bus becomes explicit
lists of emitted events. JavaScript semantics that matter to the claims
(falsy checks on strings and null, millisecond timestamps as integers) are
modelled explicitly; JSON serialisation of summary blobs is modelled by a
small inductive value instead of a string.
-/

namespace Layer1

/-- Truthiness of a nullable JavaScript string: null, undefined and the
empty string are falsy. -/
def jsTruthyStr : Option String → Bool
  | none => false
  | some s => !(s == "")

/-- Millisecond length of the 365-day quota window, as computed by the
source expression 365 * 24 * 60 * 60 * 1000. -/
def yearMs : Int := 365 * 24 * 60 * 60 * 1000

/-! ## Identity store (src/services/user-service.js) -/

/-- Row of the users table, restricted to the columns the match quota path
reads (SELECT id, auth0_sub, annual_limit, annual_usage_count,
annual_period_start). Timestamps are epoch milliseconds. -/
structure UserRow where
  id : String
  auth0_sub : String
  annual_limit : Nat
  annual_usage_count : Nat
  annual_period_start : Option Int
  deriving DecidableEq, Repr

/-- Embedding of incrementAnnualUsage: read the counters, reset the count
to zero when annual_period_start is null or more than 365 days in the
past, then increment and persist (setting annual_period_start to now on a
reset). The function returns the updated row. -/
def incrementAnnualUsage (now : Int) (u : UserRow) : UserRow :=
  let reset :=
    match u.annual_period_start with
    | none => true
    | some start => decide (now - start > yearMs)
  let base := if reset then 0 else u.annual_usage_count
  let newCount := base + 1
  { u with
    annual_usage_count := newCount
    annual_period_start := if reset then some now else u.annual_period_start }

/-! ## Entity rows and repository reads -/

/-- Summary blob column value: either the stringified parse summary or the
stringified error object built from an error message. -/
inductive SummaryVal
  | parsedBlob (s : String)
  | errMessage (m : String)
  deriving DecidableEq, Repr

/-- Row of the resumes table (columns used by the reads of
src resume-service). -/
structure ResumeRow where
  id : String
  user_id : String
  filename : String
  mime_type : String
  status : String
  parsed_summary : Option SummaryVal
  is_deleted : Bool
  created_at : Int
  updated_at : Int
  deriving DecidableEq, Repr

/-- Row of the job_descriptions table (columns used by the reads of the
job service). -/
structure JobRow where
  id : String
  user_id : String
  title : Option String
  source : String
  filename : Option String
  mime_type : Option String
  raw_text : Option String
  status : String
  parsed_summary : Option SummaryVal
  is_deleted : Bool
  created_at : Int
  updated_at : Int
  deriving DecidableEq, Repr

/-- Row of the match_jobs table. The SQL in match-service references no
soft-delete column on this table. -/
structure MatchJobRow where
  id : String
  user_id : String
  resume_id : String
  job_id : String
  status : String
  error_message : Option String
  result_id : Option String
  created_at : Int
  updated_at : Int
  deriving DecidableEq, Repr

/-- Insert into a list sorted descending by an integer key (largest
first); helper realising the ORDER BY created_at DESC clauses. -/
def insertDescBy (key : α → Int) (x : α) : List α → List α
  | [] => [x]
  | y :: ys => if key x ≥ key y then x :: y :: ys else y :: insertDescBy key x ys

/-- Sort a list descending by an integer key (newest first), realising
ORDER BY created_at DESC. -/
def sortDescBy (key : α → Int) : List α → List α
  | [] => []
  | x :: xs => insertDescBy key x (sortDescBy key xs)

/-- Embedding of getResumeForUser: SELECT from resumes WHERE id AND
user_id match. The query contains no is_deleted condition. -/
def getResumeForUser (db : List ResumeRow) (resumeId userId : String) : Option ResumeRow :=
  (db.filter (fun r => r.id == resumeId && r.user_id == userId)).head?

/-- Embedding of listResumes: SELECT summary columns FROM resumes WHERE
user_id matches, ORDER BY created_at DESC. No is_deleted condition. -/
def listResumes (db : List ResumeRow) (userId : String) : List ResumeRow :=
  sortDescBy (fun r => r.created_at) (db.filter (fun r => r.user_id == userId))

/-- Embedding of getJobForUser: SELECT from job_descriptions WHERE id AND
user_id match AND is_deleted = 0. -/
def getJobForUser (db : List JobRow) (jobId userId : String) : Option JobRow :=
  (db.filter (fun j => j.id == jobId && j.user_id == userId && !j.is_deleted)).head?

/-- Embedding of listJobs: SELECT summary columns FROM job_descriptions
WHERE user_id matches AND is_deleted = 0, ORDER BY created_at DESC. -/
def listJobs (db : List JobRow) (userId : String) : List JobRow :=
  sortDescBy (fun j => j.created_at) (db.filter (fun j => j.user_id == userId && !j.is_deleted))

/-- Embedding of getMatchJobForUser: SELECT from match_jobs WHERE id AND
user_id match (LEFT JOIN matches elided; no soft-delete condition). -/
def getMatchJobForUser (db : List MatchJobRow) (matchJobId userId : String) : Option MatchJobRow :=
  (db.filter (fun m => m.id == matchJobId && m.user_id == userId)).head?

/-- Embedding of listMatchJobs: SELECT from match_jobs WHERE user_id
matches, ORDER BY created_at DESC. -/
def listMatchJobs (db : List MatchJobRow) (userId : String) : List MatchJobRow :=
  sortDescBy (fun m => m.created_at) (db.filter (fun m => m.user_id == userId))

/-! ## Event bus (src/events/bus.js) and service write traces -/

/-- Value of a field inside a bus event payload. -/
inductive JVal
  | s (v : String)
  | n (v : Int)
  | nullV
  deriving DecidableEq, Repr

/-- Event published on the in-process bus: an event name and the payload
object given as a list of field names paired with values. -/
structure BusEvent where
  name : String
  payload : List (String × JVal)
  deriving DecidableEq, Repr

/-- Look up a payload field of a bus event by name. -/
def BusEvent.field (e : BusEvent) (k : String) : Option JVal :=
  (e.payload.find? (fun p => p.1 == k)).map (fun p => p.2)

/-- Observable action performed by a service helper or a worker, in
program order: a durable row write, a derived-children replacement, a
match result insert, or a bus emission. -/
inductive SvcAction
  | writeResume (id status : String) (parsedSummary : Option SummaryVal)
  | writeJob (id status : String) (parsedSummary : Option SummaryVal)
  | writeMatchJob (id status : String) (errorMessage : Option String) (resultId : Option String)
  | replaceSkills (resumeId : String) (skills : List String)
  | replaceRequirements (jobId : String) (requirements : List String)
  | insertMatch (id : String)
  | busEmit (e : BusEvent)
  deriving DecidableEq, Repr

/-- True exactly on bus emission actions. -/
def SvcAction.isEmit : SvcAction → Bool
  | .busEmit _ => true
  | _ => false

/-- Bus emissions contained in an action trace, in order. -/
def emittedEvents (as : List SvcAction) : List BusEvent :=
  as.filterMap (fun a => match a with | .busEmit e => some e | _ => none)

/-- Embedding of updateResumeStatus (resume-service): UPDATE the resumes
row with the new status and summary. The source function performs only
the UPDATE; it imports no bus and emits nothing. -/
def updateResumeStatus (resumeId status : String) (parsedSummary : Option SummaryVal) :
    List SvcAction :=
  [.writeResume resumeId status parsedSummary]

/-- Embedding of updateJobStatus (job-service): UPDATE the
job_descriptions row, then emit job.status.changed with payload fields
jobId, status and ts (Date.now at emission time is passed in as ts). -/
def updateJobStatus (jobId status : String) (parsedSummary : Option SummaryVal) (ts : Int) :
    List SvcAction :=
  [.writeJob jobId status parsedSummary,
   .busEmit { name := "job.status.changed"
              payload := [("jobId", .s jobId), ("status", .s status), ("ts", .n ts)] }]

/-- Embedding of updateMatchJobStatus (match-service): UPDATE the
match_jobs row (status and error_message), then emit match.status.changed
with payload fields id, status, ts and error. -/
def updateMatchJobStatus (matchJobId status : String) (errorMessage : Option String) (ts : Int) :
    List SvcAction :=
  [.writeMatchJob matchJobId status errorMessage none,
   .busEmit { name := "match.status.changed"
              payload := [("id", .s matchJobId), ("status", .s status), ("ts", .n ts),
                          ("error", match errorMessage with | some m => .s m | none => .nullV)] }]

/-- Embedding of attachResult (match-service): UPDATE the match_jobs row
to completed with the result id, then emit match.status.changed with
payload fields id, status, ts and resultId. -/
def attachResult (matchJobId matchId : String) (ts : Int) : List SvcAction :=
  [.writeMatchJob matchJobId "completed" none (some matchId),
   .busEmit { name := "match.status.changed"
              payload := [("id", .s matchJobId), ("status", .s "completed"), ("ts", .n ts),
                          ("resultId", .s matchId)] }]

/-! ## Match controller (requestMatch in the match controller source) -/

/-- HTTP response produced by the match create endpoint: status code, the
error code of the JSON body when present, and the id and status fields of
a 202 body. -/
structure ApiResponse where
  status : Nat
  errorCode : Option String
  bodyId : Option String
  bodyStatus : Option String
  deriving DecidableEq, Repr

/-- Persistent state touched by requestMatch: the calling user row plus
the three entity tables. -/
structure MatchState where
  user : UserRow
  resumes : List ResumeRow
  jobs : List JobRow
  matchJobs : List MatchJobRow
  deriving DecidableEq, Repr

/-- Embedding of createMatchJob (match-service): INSERT a match_jobs row
with status queued, then emit match.status.changed for it. Returns the
created row together with the bus emission. -/
def createMatchJob (matchJobId userId resumeId jobId : String) (now : Int) :
    MatchJobRow × BusEvent :=
  ({ id := matchJobId, user_id := userId, resume_id := resumeId, job_id := jobId,
     status := "queued", error_message := none, result_id := none,
     created_at := now, updated_at := now },
   { name := "match.status.changed"
     payload := [("id", .s matchJobId), ("status", .s "queued"), ("ts", .n now)] })

/-- Embedding of requestMatch (match controller), following the source
order exactly: auth check; body id presence check (JavaScript falsy, so a
missing or empty id gives 400); ensureUser returning the caller row; the
x-pro-member placeholder as isPro; for non-pro callers the 402 gate
comparing annual_usage_count against annual_limit followed by
incrementAnnualUsage; then resume lookup and readiness, job lookup and
readiness; finally createMatchJob and the computeMatch enqueue, answering
202. The source guards the 402 comparison with typeof number checks on
the two counters; the embedding types the columns as numbers, so those
guards always hold. Returns the response, the updated state and the bus
emissions. -/
def requestMatch (now : Int) (newMatchJobId : String) (hasAuth isPro : Bool)
    (resumeId jobId : Option String) (st : MatchState) :
    ApiResponse × MatchState × List BusEvent :=
  if !hasAuth then
    ({ status := 401, errorCode := some "unauthorized", bodyId := none, bodyStatus := none },
     st, [])
  else if !(jsTruthyStr resumeId && jsTruthyStr jobId) then
    ({ status := 400, errorCode := some "resumeId_and_jobId_required",
       bodyId := none, bodyStatus := none }, st, [])
  else
    let user := st.user
    let rid := resumeId.getD ""
    let jid := jobId.getD ""
    if !isPro && decide (user.annual_usage_count ≥ user.annual_limit) then
      ({ status := 402, errorCode := some "upgrade_required",
         bodyId := none, bodyStatus := none }, st, [])
    else
      let st1 := if isPro then st else { st with user := incrementAnnualUsage now st.user }
      match getResumeForUser st1.resumes rid user.id with
      | none =>
          ({ status := 404, errorCode := some "resume_not_found",
             bodyId := none, bodyStatus := none }, st1, [])
      | some resume =>
          if resume.status != "ready" then
            ({ status := 409, errorCode := some "resume_not_ready",
               bodyId := none, bodyStatus := none }, st1, [])
          else
            match getJobForUser st1.jobs jid user.id with
            | none =>
                ({ status := 404, errorCode := some "job_not_found",
                   bodyId := none, bodyStatus := none }, st1, [])
            | some job =>
                if job.status != "ready" then
                  ({ status := 409, errorCode := some "job_not_ready",
                     bodyId := none, bodyStatus := none }, st1, [])
                else
                  let created := createMatchJob newMatchJobId user.id rid jid now
                  ({ status := 202, errorCode := none,
                     bodyId := some newMatchJobId, bodyStatus := some created.1.status },
                   { st1 with matchJobs := created.1 :: st1.matchJobs }, [created.2])

/-! ## Worker pool (src/workers.js) -/

/-- Similarity cutoff from workers.js: a requirement with similarity at
least this value counts as matched. -/
def MATCH_THRESHOLD : Rat := 1/2

/-- Raw match detail row returned by the Python match service (fields
requirement, similarity, importance, matched_skill, inferred). -/
structure MatchDetail where
  requirement : String
  similarity : Rat
  importance : Rat
  matched_skill : Option String
  inferred : Bool
  deriving DecidableEq, Repr

/-- Enriched requirement object produced by formatRequirements. -/
structure FormattedReq where
  skill : String
  importance : Rat
  candidate_has_experience : Bool
  similarity : Rat
  matched_skill : Option String
  inferred : Bool
  comments : String
  deriving DecidableEq, Repr

/-- Rendering of a numeric similarity value into the comment string
(template interpolation in the source). -/
def ratStr (q : Rat) : String := toString q

/-- Embedding of formatRequirements: matched is similarity at or above
the threshold; the comment is chosen by the matched flag and the
JavaScript truthiness of matched_skill (absent or empty is falsy). -/
def formatRequirements (details : List MatchDetail) : List FormattedReq :=
  details.map fun detail =>
    let matched := decide (detail.similarity ≥ MATCH_THRESHOLD)
    let matchedSkill := detail.matched_skill
    let comment :=
      if matched then
        if jsTruthyStr matchedSkill then
          "Matched via " ++ matchedSkill.getD "" ++ " (similarity " ++ ratStr detail.similarity ++ ")"
        else
          "Matched with similarity " ++ ratStr detail.similarity
      else "No close match found"
    { skill := detail.requirement
      importance := detail.importance
      candidate_has_experience := matched
      similarity := detail.similarity
      matched_skill := matchedSkill
      inferred := detail.inferred
      comments := comment }

/-- Embedding of summarizeStrengths: requirement plus similarity. -/
def summarizeStrengths (strengths : List (String × Rat)) : List String :=
  strengths.map fun item => item.1 ++ " (similarity " ++ ratStr item.2 ++ ")"

/-- Embedding of summarizeWeaknesses: requirement plus importance. -/
def summarizeWeaknesses (gaps : List (String × Rat)) : List String :=
  gaps.map fun item => item.1 ++ " (importance " ++ ratStr item.2 ++ ")"

/-- Structured parse response of the NLP resume parser, reduced to the
fields the resume processor stores. -/
structure ParsedResume where
  skills : List String
  summaryBlob : String
  deriving DecidableEq, Repr

/-- Result of one processor run: the ordered action trace and the error
rethrown to the queue, when any. -/
structure WorkerRun where
  actions : List SvcAction
  thrown : Option String
  deriving DecidableEq, Repr

/-- Embedding of processParseResume. The run first writes status
processing, then fetches the object bytes: this fetch happens before the
try block, so a fetch failure propagates without any further status
write. Inside the try block a parse failure writes status error with the
message and rethrows; success replaces the skills and writes ready. The
fetch and parse arguments carry the outcome of the two external calls. -/
def processParseResume (resumeId : String) (fetch : Except String String)
    (parse : Except String ParsedResume) : WorkerRun :=
  let mark := updateResumeStatus resumeId "processing" none
  match fetch with
  | .error e => { actions := mark, thrown := some e }
  | .ok _bytes =>
    match parse with
    | .ok d =>
        { actions := mark ++ [.replaceSkills resumeId d.skills]
            ++ updateResumeStatus resumeId "ready" (some (.parsedBlob d.summaryBlob))
          thrown := none }
    | .error e =>
        { actions := mark ++ updateResumeStatus resumeId "error" (some (.errMessage e))
          thrown := some e }

/-- Embedding of processParseJob for a text-source job (a file source
additionally fetches bytes first, like the resume worker). The processor
marks processing, calls the parser, then either replaces the requirement
children and writes ready, or writes error with the message and
rethrows. The ts argument stands for Date.now at each emission. -/
def processParseJob (jobId : String) (parse : Except String ParsedResume) (ts : Int) :
    WorkerRun :=
  let mark := updateJobStatus jobId "processing" none ts
  match parse with
  | .ok d =>
      { actions := mark ++ [.replaceRequirements jobId d.skills]
          ++ updateJobStatus jobId "ready" (some (.parsedBlob d.summaryBlob)) ts
        thrown := none }
  | .error e =>
      { actions := mark ++ updateJobStatus jobId "error" (some (.errMessage e)) ts
        thrown := some e }

/-- Embedding of processComputeMatch, reduced to its status writes: mark
running, then on success of the reads and the NLP call insert the match
result and attach it (status completed); on failure write failed with
the error message and rethrow. -/
def processComputeMatch (matchJobId newMatchId : String) (callNlp : Except String Unit)
    (ts : Int) : WorkerRun :=
  let mark := updateMatchJobStatus matchJobId "running" none ts
  match callNlp with
  | .ok _ =>
      { actions := mark ++ [.insertMatch newMatchId] ++ attachResult matchJobId newMatchId ts
        thrown := none }
  | .error e =>
      { actions := mark ++ updateMatchJobStatus matchJobId "failed" (some e) ts
        thrown := some e }

/-! ## Status traces and the section 4.4 state machines -/

/-- Resume statuses written by an action trace, in order. -/
def resumeStatusWrites (as : List SvcAction) : List String :=
  as.filterMap fun a => match a with | .writeResume _ s _ => some s | _ => none

/-- Match job statuses written by an action trace, in order. -/
def matchStatusWrites (as : List SvcAction) : List String :=
  as.filterMap fun a => match a with | .writeMatchJob _ s _ _ => some s | _ => none

/-- Forward edge of the resume and job state machine of the spec:
queued to processing, processing to ready, processing to error. -/
def specResumeStep (a b : String) : Bool :=
  (a == "queued" && b == "processing") ||
  (a == "processing" && b == "ready") ||
  (a == "processing" && b == "error")

/-- Forward edge of the match job state machine of the spec: queued to
running, running to completed, running to failed. -/
def specMatchStep (a b : String) : Bool :=
  (a == "queued" && b == "running") ||
  (a == "running" && b == "completed") ||
  (a == "running" && b == "failed")

/-- A list of statuses in which every adjacent pair is a forward edge. -/
def chainOk (step : String → String → Bool) : List String → Bool
  | [] => true
  | [_] => true
  | a :: b :: rest => step a b && chainOk step (b :: rest)

/-- Status history of a resume under at-least-once delivery: the row is
created queued, then each delivery of the parseResume job runs the
processor once with its own fetch and parse outcomes. -/
def resumeStatusTrace (resumeId : String)
    (deliveries : List (Except String String × Except String ParsedResume)) : List String :=
  "queued" ::
    (deliveries.map fun d =>
      resumeStatusWrites (processParseResume resumeId d.1 d.2).actions).flatten

/-- Status history of a match job under at-least-once delivery: created
queued by createMatchJob, then each delivery runs processComputeMatch. -/
def matchStatusTrace (matchJobId : String) (deliveries : List (Except String Unit)) :
    List String :=
  "queued" ::
    (deliveries.map fun c =>
      matchStatusWrites (processComputeMatch matchJobId "m-result" c 0).actions).flatten

/-! ## Realtime bridge (src/realtime.js) -/

/-- Row produced by the authoritative read of the bridge handlers: the
entity columns joined with the owning user auth0_sub (LEFT JOIN users, so
the subject can be null). -/
structure RtRow where
  id : String
  status : String
  title : Option String
  created_at : Int
  updated_at : Int
  auth0_sub : Option String
  deriving DecidableEq, Repr

/-- Message pushed to the realtime transport: the target room, the event
name, and the payload id and status fields. -/
structure EmitMsg where
  room : String
  event : String
  payloadId : String
  payloadStatus : String
  deriving DecidableEq, Repr

/-- Embedding of the handler installed by registerJobStatusListener: look
up the job row joined with auth0_sub; when no row is found, or the
subject is falsy (null from the LEFT JOIN, or empty), emit nothing; else
emit job:update to the room user:(subject). The lookup argument carries
the query result for the event entity id. -/
def jobStatusHandler (lookup : Option RtRow) : List EmitMsg :=
  match lookup with
  | none => []
  | some row =>
    if !(jsTruthyStr row.auth0_sub) then []
    else [{ room := "user:" ++ row.auth0_sub.getD "", event := "job:update",
            payloadId := row.id, payloadStatus := row.status }]

/-- Embedding of the handler built by registerSimpleStatusListener for a
given emit event name (resume:update or match:update): the same lookup,
drop on a missing row or a falsy subject, else emit to user:(subject). -/
def simpleStatusHandler (emitEvent : String) (lookup : Option RtRow) : List EmitMsg :=
  match lookup with
  | none => []
  | some row =>
    if !(jsTruthyStr row.auth0_sub) then []
    else [{ room := "user:" ++ row.auth0_sub.getD "", event := emitEvent,
            payloadId := row.id, payloadStatus := row.status }]

/-- Marker attached to a registered handler (the __rtListener property):
absent on foreign handlers, the boolean true on the job bridge handler,
a string flag on the simple bridge handlers. -/
inductive RtFlag
  | undef
  | boolTrue
  | strVal (s : String)
  deriving DecidableEq, Repr

/-- JavaScript truthiness of an __rtListener marker. -/
def rtFlagTruthy : RtFlag → Bool
  | .undef => false
  | .boolTrue => true
  | .strVal s => !(s == "")

/-- Embedding of registerJobStatusListener over the list of markers of
the handlers currently subscribed to job.status.changed: when some
subscribed handler already carries a truthy __rtListener marker the call
returns without subscribing; otherwise it subscribes the bridge handler
flagged with true. -/
def registerJobStatusListener (ls : List RtFlag) : List RtFlag :=
  if ls.any rtFlagTruthy then ls else ls ++ [.boolTrue]

/-- Synchronous fan-out of one job.status.changed event: every subscribed
bridge handler runs on the authoritative lookup result. In the boot and
test scenario modelled here every subscribed handler is the bridge
handler, so each subscription contributes one handler run. -/
def emitJobStatusChanged (ls : List RtFlag) (lookup : Option RtRow) : List EmitMsg :=
  (ls.map fun _ => jobStatusHandler lookup).flatten

/-! ## Express routers (src/routes/resumes.js, src/routes/jobs.js) -/

/-- HTTP method of a request or a registered route. -/
inductive Method
  | get
  | post
  | del
  deriving DecidableEq, Repr

/-- Registered routes of the job router, in registration order: GET /,
GET /:id and POST /. The file registers no DELETE route. -/
def jobRouterRoutes : List (Method × String) :=
  [(.get, "/"), (.get, "/:id"), (.post, "/")]

/-- Registered routes of the resume router, in registration order: GET /,
GET /:id and POST /. The file registers no DELETE route. -/
def resumeRouterRoutes : List (Method × String) :=
  [(.get, "/"), (.get, "/:id"), (.post, "/")]

/-- Express path matching restricted to the patterns above: the root
pattern matches the empty subpath, and the one-parameter pattern matches
exactly one nonempty path segment. -/
def patternMatches (pattern : String) (segments : List String) : Bool :=
  if pattern == "/" then segments.isEmpty
  else if pattern == "/:id" then
    match segments with
    | [seg] => !(seg == "")
    | _ => false
  else false

/-- Router dispatch: index of the first registered route whose method and
pattern match the request, none when the request falls through to the
Express default 404 handler. -/
def dispatch (routes : List (Method × String)) (m : Method) (segments : List String) :
    Option Nat :=
  routes.findIdx? (fun r => r.1 == m && patternMatches r.2 segments)

/-! ## Candidate summary and persisted match summary (workers.js) -/

/-- Nullable string coalesced by the JavaScript or-null idiom: an absent
or empty string becomes null. -/
def jsOrNullStr (v : Option String) : Option String :=
  if jsTruthyStr v then v else none

/-- Nullable number coalesced by the or-null idiom: absent or zero
becomes null. -/
def jsOrNullRat (v : Option Rat) : Option Rat :=
  match v with
  | some q => if q == 0 then none else some q
  | none => none

/-- Embedding of extractTopLines: nothing for a missing or empty section,
else the first maxItems trimmed nonempty lines (splitting on newlines;
trimming removes a carriage return as in the source regex). -/
def extractTopLines (sectionText : Option String) (maxItems : Nat) : List String :=
  match sectionText with
  | none => []
  | some t =>
    if t == "" then []
    else (((t.splitOn "\n").map (fun line => line.trim)).filter
      (fun line => !(line == ""))).take maxItems

/-- Parsed resume summary blob as read back from the resumes row: the
sections map and the profile fields used by buildCandidateSummary. -/
structure ResumeParsedSummary where
  sections : List (String × String)
  profile_name : Option String
  profile_total_experience_years : Option Rat
  profile_summary : Option String
  deriving DecidableEq, Repr

/-- Lookup of a section body by name in the sections map. -/
def sectionLookup (secs : List (String × String)) (k : String) : Option String :=
  (secs.find? (fun p => p.1 == k)).map (fun p => p.2)

/-- Insert into an ascending list of strings (lexicographic). -/
def insertAscStr (x : String) : List String → List String
  | [] => [x]
  | y :: ys => if decide (x ≤ y) then x :: y :: ys else y :: insertAscStr x ys

/-- Ascending lexicographic sort of strings, realising the JavaScript
Array sort in buildCandidateSummary. -/
def sortStrAsc : List String → List String
  | [] => []
  | x :: xs => insertAscStr x (sortStrAsc xs)

/-- Candidate view inside the persisted match summary. -/
structure CandidateSummary where
  name : Option String
  skills : List String
  experience_years : Option Rat
  degrees : List String
  certifications : List String
  summary : Option String
  deriving DecidableEq, Repr

/-- Embedding of buildCandidateSummary: profile fields coalesced to null
when falsy, skills deduplicated (first occurrence kept) and sorted
ascending, degrees and certifications as the top lines of the EDUCATION
and CERTIFICATIONS sections. -/
def buildCandidateSummary (parsedSummary : Option ResumeParsedSummary)
    (skillsRows : List String) : CandidateSummary :=
  let sections := match parsedSummary with | some p => p.sections | none => []
  { name := jsOrNullStr (parsedSummary.bind (fun p => p.profile_name))
    skills := sortStrAsc skillsRows.eraseDups
    experience_years := jsOrNullRat (parsedSummary.bind (fun p => p.profile_total_experience_years))
    degrees := extractTopLines (sectionLookup sections "EDUCATION") 3
    certifications := extractTopLines (sectionLookup sections "CERTIFICATIONS") 3
    summary := jsOrNullStr (parsedSummary.bind (fun p => p.profile_summary)) }

/-- Summary object returned by the Python match endpoint. -/
structure PySummary where
  details : List MatchDetail
  strengths : List (String × Rat)
  gaps : List (String × Rat)
  overall_match_score : Option Rat
  deriving DecidableEq, Repr

/-- Persisted match summary built by processComputeMatch. -/
structure MatchSummary where
  overall_match_score : Option Rat
  candidate : CandidateSummary
  requirements : List FormattedReq
  strengths : List String
  weaknesses : List String
  job_highlights : Option String
  raw_details : List MatchDetail
  deriving DecidableEq, Repr

/-- Embedding of the matchSummary object literal in processComputeMatch:
the top-level score when defined, else the summary score; the candidate
view; the enriched requirements via formatRequirements; strengths and
weaknesses strings; the job highlights; and the raw details. -/
def buildMatchSummary (score : Option Rat) (pySummary : PySummary)
    (candidate : CandidateSummary) (jobHighlights : Option String) : MatchSummary :=
  { overall_match_score :=
      match score with
      | some s => some s
      | none => pySummary.overall_match_score
    candidate := candidate
    requirements := formatRequirements pySummary.details
    strengths := summarizeStrengths pySummary.strengths
    weaknesses := summarizeWeaknesses pySummary.gaps
    job_highlights := jobHighlights
    raw_details := pySummary.details }

/-! ## Spec-side definitions for the match summary contract (P7) -/

/-- Modelled from the spec: the matched flag of property P7, true exactly
when the detail similarity is at least one half. -/
def specMatchedFlag (d : MatchDetail) : Bool :=
  decide ((1 : Rat)/2 ≤ d.similarity)

/-- Modelled from the spec: the three-case comment template of section
4.4 — matched with a named matched skill, matched without one, and
unmatched. A named matched skill is one that is present and nonempty. -/
def specComment (d : MatchDetail) : String :=
  if specMatchedFlag d then
    match d.matched_skill with
    | some s =>
        if s == "" then "Matched with similarity " ++ ratStr d.similarity
        else "Matched via " ++ s ++ " (similarity " ++ ratStr d.similarity ++ ")"
    | none => "Matched with similarity " ++ ratStr d.similarity
  else "No close match found"

/-! ## Concrete fixtures used by counterexamples and witnesses -/

/-- Non-privileged caller at the annual limit whose 365-day window
started 400 days before the request time 40000000000 ms (window length
31536000000 ms, 40000000000 - 5440000000 = 34560000000 ms elapsed). -/
def c1user : UserRow :=
  { id := "u1", auth0_sub := "dev|user", annual_limit := 1,
    annual_usage_count := 1, annual_period_start := some 5440000000 }

/-- Ready resume owned by the quota fixture user. -/
def c1resume : ResumeRow :=
  { id := "r1", user_id := "u1", filename := "resume.txt",
    mime_type := "text/plain", status := "ready",
    parsed_summary := some (.parsedBlob "sections"), is_deleted := false,
    created_at := 1000, updated_at := 2000 }

/-- Ready job owned by the quota fixture user. -/
def c1job : JobRow :=
  { id := "j1", user_id := "u1", title := some "Engineer", source := "text",
    filename := none, mime_type := some "text/plain",
    raw_text := some "Looking for Python skills", status := "ready",
    parsed_summary := some (.parsedBlob "highlights"), is_deleted := false,
    created_at := 1000, updated_at := 2000 }

/-- State for the quota-gate counterexample: valid ready inputs, caller
at the limit with an expired window. -/
def c1state : MatchState :=
  { user := c1user, resumes := [c1resume], jobs := [c1job], matchJobs := [] }

/-- Non-privileged caller below the limit (count 5 of 100) whose window
expired 400 days before request time 40000000000 ms. -/
def c6user : UserRow :=
  { id := "u6", auth0_sub := "dev|user", annual_limit := 100,
    annual_usage_count := 5, annual_period_start := some 5440000000 }

/-- State for the usage-charge counterexample: the referenced resume does
not exist, so the request is answered 404 after the gate. -/
def c6state : MatchState :=
  { user := c6user, resumes := [], jobs := [], matchJobs := [] }

/-- Soft-deleted resume row owned by user u5. -/
def c5deletedResume : ResumeRow :=
  { id := "r5", user_id := "u5", filename := "cv.pdf",
    mime_type := "application/pdf", status := "ready",
    parsed_summary := none, is_deleted := true,
    created_at := 10, updated_at := 20 }

/-- Authoritative realtime row for a resume-status event whose owner has
external subject dev|user. -/
def c9row : RtRow :=
  { id := "resume-123", status := "processing", title := none,
    created_at := 0, updated_at := 0, auth0_sub := some "dev|user" }

/-- Authoritative realtime row for the job-status fan-out scenario. -/
def c10row : RtRow :=
  { id := "job-123", status := "processing", title := some "Engineer",
    created_at := 0, updated_at := 0, auth0_sub := some "dev|user" }

/-! ## Helper lemmas -/

/-- Membership is preserved by sorted insertion. -/
theorem mem_insertDescBy {key : α → Int} {x y : α} {l : List α} :
    x ∈ insertDescBy key y l ↔ x = y ∨ x ∈ l := by
  induction l with
  | nil => simp [insertDescBy]
  | cons z zs ih =>
      by_cases h : key y ≥ key z
      · simp [insertDescBy, h]
      · simp only [insertDescBy, if_neg h, List.mem_cons, ih]
        tauto

/-- Membership is preserved by the descending sort. -/
theorem mem_sortDescBy {key : α → Int} {x : α} {l : List α} :
    x ∈ sortDescBy key l ↔ x ∈ l := by
  induction l with
  | nil => simp [sortDescBy]
  | cons z zs ih => simp [sortDescBy, mem_insertDescBy, ih]

/-- With a non-pro caller at or over the limit, requestMatch answers 402
and leaves the state untouched (the quota gate consults only the two
counters). -/
theorem requestMatch_gate_fail (now : Int) (newId : String) (rid jid : Option String)
    (st : MatchState) (hr : jsTruthyStr rid = true) (hj : jsTruthyStr jid = true)
    (hq : st.user.annual_limit ≤ st.user.annual_usage_count) :
    requestMatch now newId true false rid jid st =
      ({ status := 402, errorCode := some "upgrade_required",
         bodyId := none, bodyStatus := none }, st, []) := by
  simp [requestMatch, hr, hj, ge_iff_le, hq]

/-- With a non-pro caller under the limit, requestMatch persists the
incrementAnnualUsage update of the caller row in every outcome, never
answers 402, and creates no match job row when the outcome is 404 or
409. -/
theorem requestMatch_gate_pass (now : Int) (newId : String) (rid jid : Option String)
    (st : MatchState) (hr : jsTruthyStr rid = true) (hj : jsTruthyStr jid = true)
    (hq : st.user.annual_usage_count < st.user.annual_limit) :
    (requestMatch now newId true false rid jid st).2.1.user = incrementAnnualUsage now st.user ∧
    (requestMatch now newId true false rid jid st).1.status ≠ 402 ∧
    ((requestMatch now newId true false rid jid st).1.status = 404 ∨
     (requestMatch now newId true false rid jid st).1.status = 409 →
      (requestMatch now newId true false rid jid st).2.1.matchJobs = st.matchJobs) := by
  have hq2 : ¬ (st.user.annual_usage_count ≥ st.user.annual_limit) := by omega
  simp only [requestMatch, hr, hj, Bool.and_self, Bool.not_true, Bool.false_eq_true, if_false,
    Bool.not_false, Bool.true_and, decide_eq_true_eq, if_neg hq2, if_true, Bool.not_eq_true]
  split
  · exact ⟨rfl, by simp, fun _ => rfl⟩
  · split
    · exact ⟨rfl, by simp, fun _ => rfl⟩
    · split
      · exact ⟨rfl, by simp, fun _ => rfl⟩
      · split
        · exact ⟨rfl, by simp, fun _ => rfl⟩
        · refine ⟨rfl, by simp, fun h => ?_⟩
          rcases h with h | h <;> simp at h

/-- The element selected by head? is a member of the list. -/
theorem head?_mem {l : List α} {x : α} (h : l.head? = some x) : x ∈ l := by
  cases l with
  | nil => simp at h
  | cons a t =>
      simp only [List.head?_cons, Option.some.injEq] at h
      simp [h]

/-- The matched flag computed by formatRequirements coincides with the
spec-side flag. -/
theorem matched_flag_eq (d : MatchDetail) :
    decide (d.similarity ≥ MATCH_THRESHOLD) = specMatchedFlag d := by
  simp [specMatchedFlag, MATCH_THRESHOLD, ge_iff_le]

/-- Elementwise statement of the match summary contract for the output
of formatRequirements. -/
theorem formatRequirements_forall2 (details : List MatchDetail) :
    List.Forall₂ (fun d r => r.skill = d.requirement ∧
        r.candidate_has_experience = specMatchedFlag d ∧ r.comments = specComment d)
      details (formatRequirements details) := by
  induction details with
  | nil => exact List.Forall₂.nil
  | cons d ds ih =>
      refine List.Forall₂.cons ⟨rfl, matched_flag_eq d, ?_⟩ ih
      show (if (decide (d.similarity ≥ MATCH_THRESHOLD)) = true then
              if (jsTruthyStr d.matched_skill) = true then
                "Matched via " ++ d.matched_skill.getD "" ++ " (similarity " ++
                  ratStr d.similarity ++ ")"
              else "Matched with similarity " ++ ratStr d.similarity
            else "No close match found") = specComment d
      rw [matched_flag_eq d]
      by_cases hm : specMatchedFlag d = true
      · rcases hs : d.matched_skill with _ | s
        · simp [specComment, hm, hs, jsTruthyStr]
        · by_cases he : s = ""
          · simp [specComment, hm, hs, he, jsTruthyStr]
          · simp [specComment, hm, hs, he, jsTruthyStr]
      · simp [specComment, hm]

/-! ## Claim theorems -/

/-- C2: the job and resume routers register no DELETE route at all — a
DELETE request on an existing entity id matches none of the registered
routes and falls through to the Express default 404 handler, while the
GET and POST routes of the same routers do match. The repository tests
expect DELETE to answer 204 and invoke the soft delete services, so the
code contradicts its own tests. -/
theorem claim_C2_no_delete_route :
    dispatch jobRouterRoutes Method.del ["job-123"] = none ∧
    dispatch resumeRouterRoutes Method.del ["resume-123"] = none ∧
    dispatch jobRouterRoutes Method.get ["job-123"] = some 1 ∧
    dispatch resumeRouterRoutes Method.get ["resume-123"] = some 1 ∧
    dispatch jobRouterRoutes Method.post [] = some 2 ∧
    dispatch resumeRouterRoutes Method.post [] = some 2 := by
  decide

/-- C3 counterexample: a resume status transition to ready performs the
durable row write but emits no event at all — updateResumeStatus in the
resume service publishes nothing on the bus, so the claim that every
updateStatus emits the corresponding status.changed event is false. -/
theorem claim_C3_counterexample :
    updateResumeStatus "r1" "ready" (some (.parsedBlob "sections")) =
      [.writeResume "r1" "ready" (some (.parsedBlob "sections"))] ∧
    emittedEvents (updateResumeStatus "r1" "ready" (some (.parsedBlob "sections"))) = [] :=
  ⟨rfl, rfl⟩

/-- C3 (amended): updateJobStatus and updateMatchJobStatus durably write
the row first and then emit job.status.changed and match.status.changed;
the job payload carries jobId, status and ts (and no id field), the
match payload carries id, status and ts; updateResumeStatus writes the
row but emits no event. -/
theorem claim_C3_amended (eid status : String) (summary : Option SummaryVal)
    (err : Option String) (ts : Int) :
    emittedEvents (updateResumeStatus eid status summary) = [] ∧
    (∃ e, updateJobStatus eid status summary ts =
        [.writeJob eid status summary, .busEmit e] ∧
      e.name = "job.status.changed" ∧ e.field "jobId" = some (.s eid) ∧
      e.field "status" = some (.s status) ∧ e.field "ts" = some (.n ts) ∧
      e.field "id" = none) ∧
    (∃ e, updateMatchJobStatus eid status err ts =
        [.writeMatchJob eid status err none, .busEmit e] ∧
      e.name = "match.status.changed" ∧ e.field "id" = some (.s eid) ∧
      e.field "status" = some (.s status) ∧ e.field "ts" = some (.n ts)) :=
  ⟨rfl, ⟨_, rfl, rfl, rfl, rfl, rfl, rfl⟩, ⟨_, rfl, rfl, rfl, rfl, rfl⟩⟩

/-- C4 counterexample: when the object-storage fetch fails the resume
worker rethrows the failure but never writes the error status — the only
status written is processing, because the fetch happens before the try
block. The claim that a failed fetch transitions the resume to error is
false. -/
theorem claim_C4_counterexample :
    (processParseResume "r1" (.error "storage_fetch_failed")
        (.ok { skills := ["python"], summaryBlob := "blob" })).thrown =
      some "storage_fetch_failed" ∧
    resumeStatusWrites (processParseResume "r1" (.error "storage_fetch_failed")
        (.ok { skills := ["python"], summaryBlob := "blob" })).actions = ["processing"] :=
  ⟨rfl, rfl⟩

/-- C4 (amended): a failure of the NLP call (or of result persistence,
inside the try block) transitions the resume to error with the failure
message and rethrows; but a failed object-storage fetch only rethrows,
leaving the resume in processing with no error write; a fully successful
run writes processing then ready and throws nothing. -/
theorem claim_C4_amended (rid : String) (fetch : Except String String)
    (parse : Except String ParsedResume) :
    (∀ e, fetch = .error e →
      (processParseResume rid fetch parse).actions = updateResumeStatus rid "processing" none ∧
      resumeStatusWrites (processParseResume rid fetch parse).actions = ["processing"] ∧
      (processParseResume rid fetch parse).thrown = some e) ∧
    (∀ b e, fetch = .ok b → parse = .error e →
      resumeStatusWrites (processParseResume rid fetch parse).actions = ["processing", "error"] ∧
      (processParseResume rid fetch parse).actions.getLast? =
        some (.writeResume rid "error" (some (.errMessage e))) ∧
      (processParseResume rid fetch parse).thrown = some e) ∧
    (∀ b d, fetch = .ok b → parse = .ok d →
      resumeStatusWrites (processParseResume rid fetch parse).actions = ["processing", "ready"] ∧
      (processParseResume rid fetch parse).thrown = none) := by
  refine ⟨?_, ?_, ?_⟩
  · rintro e rfl
    exact ⟨rfl, rfl, rfl⟩
  · rintro b e rfl rfl
    exact ⟨rfl, rfl, rfl⟩
  · rintro b d rfl rfl
    exact ⟨rfl, rfl⟩

/-- C4 witness: concrete instance of the amended claim with a successful
fetch and a failed NLP parse. -/
theorem claim_C4_witness :
    ((Except.ok "bytes" : Except String String) = .ok "bytes") ∧
    ((Except.error "nlp_down" : Except String ParsedResume) = .error "nlp_down") ∧
    (resumeStatusWrites (processParseResume "r1" (.ok "bytes")
        (.error "nlp_down")).actions = ["processing", "error"] ∧
      (processParseResume "r1" (.ok "bytes") (.error "nlp_down")).actions.getLast? =
        some (.writeResume "r1" "error" (some (.errMessage "nlp_down"))) ∧
      (processParseResume "r1" (.ok "bytes") (.error "nlp_down")).thrown = some "nlp_down") :=
  ⟨rfl, rfl,
    (claim_C4_amended "r1" (.ok "bytes") (.error "nlp_down")).2.1 "bytes" "nlp_down" rfl rfl⟩

/-- C7 counterexample: under at-least-once delivery, a second delivery of
a parse job that previously failed re-runs the processor, whose first
action rewrites processing — the resulting status history steps from
error back to processing, which is not an edge of the section 4.4 state
machine; likewise a match job steps from failed back to running. -/
theorem claim_C7_counterexample :
    resumeStatusTrace "r1"
        [(.ok "b", .error "nlp_down"),
         (.ok "b", .ok { skills := ["python"], summaryBlob := "blob" })] =
      ["queued", "processing", "error", "processing", "ready"] ∧
    chainOk specResumeStep (resumeStatusTrace "r1"
        [(.ok "b", .error "nlp_down"),
         (.ok "b", .ok { skills := ["python"], summaryBlob := "blob" })]) = false ∧
    matchStatusTrace "m1" [.error "nlp_down", .ok ()] =
      ["queued", "running", "failed", "running", "completed"] ∧
    chainOk specMatchStep (matchStatusTrace "m1" [.error "nlp_down", .ok ()]) = false :=
  ⟨rfl, rfl, rfl, rfl⟩

/-- C7 (amended): within any single delivery of a parse or match job the
status history follows the section 4.4 state machine (queued, then
processing with ready or error; queued, then running with completed or
failed); every processor run re-enters by writing processing
(respectively running) first, which is what produces a backward step
when the queue redelivers a job whose earlier run already reached a
terminal status. -/
theorem claim_C7_amended (rid mid : String) (f : Except String String)
    (p : Except String ParsedResume) (c : Except String Unit) :
    (resumeStatusWrites (processParseResume rid f p).actions).head? = some "processing" ∧
    chainOk specResumeStep (resumeStatusTrace rid [(f, p)]) = true ∧
    (matchStatusWrites (processComputeMatch mid "m0" c 0).actions).head? = some "running" ∧
    chainOk specMatchStep (matchStatusTrace mid [c]) = true := by
  cases f <;> cases p <;> cases c <;> exact ⟨rfl, rfl, rfl, rfl⟩

/-- C8: in every persisted match summary the enriched requirements line
up one-to-one with the raw details, each carrying the matched flag equal
to similarity at least one half and the comment string of the three-case
template of section 4.4. -/
theorem claim_C8_summary_shape (score : Option Rat) (pys : PySummary)
    (cand : CandidateSummary) (jh : Option String) :
    List.Forall₂ (fun d r => r.skill = d.requirement ∧
        r.candidate_has_experience = specMatchedFlag d ∧ r.comments = specComment d)
      (buildMatchSummary score pys cand jh).raw_details
      (buildMatchSummary score pys cand jh).requirements :=
  formatRequirements_forall2 pys.details

/-- C9: every message pushed by the realtime bridge handlers goes only to
the room user:(subject) of the owner of the authoritative row, and when
the row is missing or the owner subject is null no message is emitted at
all. -/
theorem claim_C9_routing (ev : String) (lookup : Option RtRow) :
    (∀ m ∈ simpleStatusHandler ev lookup, ∃ row sub, lookup = some row ∧
        row.auth0_sub = some sub ∧ m.room = "user:" ++ sub) ∧
    (∀ m ∈ jobStatusHandler lookup, ∃ row sub, lookup = some row ∧
        row.auth0_sub = some sub ∧ m.room = "user:" ++ sub) ∧
    simpleStatusHandler ev none = [] ∧ jobStatusHandler none = [] ∧
    (∀ row : RtRow, row.auth0_sub = none →
        simpleStatusHandler ev (some row) = [] ∧ jobStatusHandler (some row) = []) := by
  refine ⟨?_, ?_, rfl, rfl, ?_⟩
  · intro m hm
    cases lookup with
    | none => simp [simpleStatusHandler] at hm
    | some row =>
        rcases hs : row.auth0_sub with _ | s
        · simp [simpleStatusHandler, jsTruthyStr, hs] at hm
        · by_cases he : s = ""
          · simp [simpleStatusHandler, jsTruthyStr, hs, he] at hm
          · simp [simpleStatusHandler, jsTruthyStr, hs, he] at hm
            exact ⟨row, s, rfl, hs, by simp [hm]⟩
  · intro m hm
    cases lookup with
    | none => simp [jobStatusHandler] at hm
    | some row =>
        rcases hs : row.auth0_sub with _ | s
        · simp [jobStatusHandler, jsTruthyStr, hs] at hm
        · by_cases he : s = ""
          · simp [jobStatusHandler, jsTruthyStr, hs, he] at hm
          · simp [jobStatusHandler, jsTruthyStr, hs, he] at hm
            exact ⟨row, s, rfl, hs, by simp [hm]⟩
  · intro row hs
    exact ⟨by simp [simpleStatusHandler, jsTruthyStr, hs],
           by simp [jobStatusHandler, jsTruthyStr, hs]⟩

/-- C9 witness: concrete resume-status event whose owner has subject
dev|user is delivered to the room user:dev|user. -/
theorem claim_C9_witness :
    ({ room := "user:dev|user", event := "resume:update", payloadId := "resume-123",
       payloadStatus := "processing" } : EmitMsg) ∈
      simpleStatusHandler "resume:update" (some c9row) ∧
    (∃ row sub, (some c9row : Option RtRow) = some row ∧
      row.auth0_sub = some sub ∧
      ({ room := "user:dev|user", event := "resume:update", payloadId := "resume-123",
         payloadStatus := "processing" } : EmitMsg).room = "user:" ++ sub) :=
  ⟨by decide, (claim_C9_routing "resume:update" (some c9row)).1 _ (by decide)⟩

/-- C10: registering the job-status listener is idempotent (a second
registration finds the truthy marker and is a no-op), and emitting a
single job.status.changed event after registering twice from a clean bus
delivers exactly one job:update message to the owning user room
user:dev|user. -/
theorem claim_C10_idempotent_registration :
    (∀ ls : List RtFlag, registerJobStatusListener (registerJobStatusListener ls) =
        registerJobStatusListener ls) ∧
    emitJobStatusChanged (registerJobStatusListener (registerJobStatusListener []))
        (some c10row) =
      [{ room := "user:dev|user", event := "job:update", payloadId := "job-123",
         payloadStatus := "processing" }] := by
  constructor
  · intro ls
    by_cases h : ls.any rtFlagTruthy
    · simp [registerJobStatusListener, h]
    · simp [registerJobStatusListener, h, List.any_append, rtFlagTruthy]
  · decide

/-- C5 counterexample: a soft-deleted resume row is still observed — the
resume detail read matches only id and user_id, so it returns the row
with is_deleted true, and the resume list read also includes it. The
subset property over rows with isDeleted false is therefore false. -/
theorem claim_C5_counterexample :
    getResumeForUser [c5deletedResume] "r5" "u5" = some c5deletedResume ∧
    c5deletedResume.is_deleted = true ∧
    listResumes [c5deletedResume] "u5" = [c5deletedResume] := by
  decide

/-- C5 (amended): every read and list operation on resumes, jobs and
match jobs observes only rows owned by the caller; the job detail and
job list reads additionally exclude soft-deleted rows, but the resume
reads and the match job reads apply no isDeleted filter. -/
theorem claim_C5_amended :
    (∀ (db : List ResumeRow) (rid uid : String) (r : ResumeRow),
      getResumeForUser db rid uid = some r → r.user_id = uid) ∧
    (∀ (db : List ResumeRow) (uid : String) (r : ResumeRow),
      r ∈ listResumes db uid → r.user_id = uid) ∧
    (∀ (db : List JobRow) (jid uid : String) (j : JobRow),
      getJobForUser db jid uid = some j → j.user_id = uid ∧ j.is_deleted = false) ∧
    (∀ (db : List JobRow) (uid : String) (j : JobRow),
      j ∈ listJobs db uid → j.user_id = uid ∧ j.is_deleted = false) ∧
    (∀ (db : List MatchJobRow) (mid uid : String) (m : MatchJobRow),
      getMatchJobForUser db mid uid = some m → m.user_id = uid) ∧
    (∀ (db : List MatchJobRow) (uid : String) (m : MatchJobRow),
      m ∈ listMatchJobs db uid → m.user_id = uid) := by
  refine ⟨?_, ?_, ?_, ?_, ?_, ?_⟩
  · intro db rid uid r h
    have hmem := head?_mem h
    have := (List.mem_filter.mp hmem).2
    simp only [Bool.and_eq_true, beq_iff_eq] at this
    exact this.2
  · intro db uid r h
    have hmem := mem_sortDescBy.mp h
    have := (List.mem_filter.mp hmem).2
    simpa using this
  · intro db jid uid j h
    have hmem := head?_mem h
    have := (List.mem_filter.mp hmem).2
    simp only [Bool.and_eq_true, beq_iff_eq, Bool.not_eq_true'] at this
    exact ⟨this.1.2, this.2⟩
  · intro db uid j h
    have hmem := mem_sortDescBy.mp h
    have := (List.mem_filter.mp hmem).2
    simp only [Bool.and_eq_true, beq_iff_eq, Bool.not_eq_true'] at this
    exact this
  · intro db mid uid m h
    have hmem := head?_mem h
    have := (List.mem_filter.mp hmem).2
    simp only [Bool.and_eq_true, beq_iff_eq] at this
    exact this.2
  · intro db uid m h
    have hmem := mem_sortDescBy.mp h
    have := (List.mem_filter.mp hmem).2
    simpa using this

/-- C5 witness: concrete instance of the ownership part of the amended
claim at the soft-deleted resume fixture. -/
theorem claim_C5_witness :
    getResumeForUser [c5deletedResume] "r5" "u5" = some c5deletedResume ∧
    c5deletedResume.user_id = "u5" :=
  ⟨by decide, claim_C5_amended.1 [c5deletedResume] "r5" "u5" c5deletedResume (by decide)⟩

/-- C1 counterexample: a non-privileged caller at the limit whose 365-day
window expired 400 days ago, with valid ready resume and job inputs, is
still refused with 402 upgrade_required and no state change — the gate
compares only the counters and never consults annual_period_start, so the
expired window is neither honoured nor reset. -/
theorem claim_C1_counterexample :
    (requestMatch 40000000000 "mj1" true false (some "r1") (some "j1") c1state).1 =
      { status := 402, errorCode := some "upgrade_required",
        bodyId := none, bodyStatus := none } ∧
    (requestMatch 40000000000 "mj1" true false (some "r1") (some "j1") c1state).2.1 =
      c1state ∧
    c1state.user.annual_period_start = some 5440000000 ∧
    ((40000000000 : Int) - 5440000000 > yearMs) ∧
    c1state.user.annual_limit ≤ c1state.user.annual_usage_count ∧
    getResumeForUser c1state.resumes "r1" c1state.user.id = some c1resume ∧
    c1resume.status = "ready" ∧
    getJobForUser c1state.jobs "j1" c1state.user.id = some c1job ∧
    c1job.status = "ready" := by
  decide

/-- C1 (amended): for a non-privileged POST /matches request with both
ids present, the quota gate refuses with 402 exactly when
annualUsageCount has reached annualLimit, regardless of the 365-day
window; on refusal nothing is written; when the count is under the limit
the window logic runs only inside incrementAnnualUsage, whose update
(resetting the window when annualPeriodStart is null or older than 365
days) is persisted before the request proceeds. -/
theorem claim_C1_amended (now : Int) (newId : String) (rid jid : Option String)
    (st : MatchState) (hr : jsTruthyStr rid = true) (hj : jsTruthyStr jid = true) :
    (((requestMatch now newId true false rid jid st).1.status = 402) ↔
        st.user.annual_limit ≤ st.user.annual_usage_count) ∧
    (st.user.annual_limit ≤ st.user.annual_usage_count →
        requestMatch now newId true false rid jid st =
          ({ status := 402, errorCode := some "upgrade_required",
             bodyId := none, bodyStatus := none }, st, [])) ∧
    (st.user.annual_usage_count < st.user.annual_limit →
        (requestMatch now newId true false rid jid st).2.1.user =
          incrementAnnualUsage now st.user) := by
  by_cases hq : st.user.annual_limit ≤ st.user.annual_usage_count
  · have hfull := requestMatch_gate_fail now newId rid jid st hr hj hq
    refine ⟨?_, fun _ => hfull, fun hlt => absurd hq (by omega)⟩
    simp [hfull, hq]
  · have hlt : st.user.annual_usage_count < st.user.annual_limit := by omega
    have hp := requestMatch_gate_pass now newId rid jid st hr hj hlt
    exact ⟨⟨fun h402 => absurd h402 hp.2.1, fun hle => absurd hle hq⟩,
           fun hle => absurd hle hq, fun _ => hp.1⟩

/-- C1 witness: the amended claim applied at the expired-window fixture
state, with both request ids present. -/
theorem claim_C1_witness :
    jsTruthyStr (some "r1") = true ∧ jsTruthyStr (some "j1") = true ∧
    ((((requestMatch 77 "mjw" true false (some "r1") (some "j1") c1state).1.status = 402) ↔
        c1state.user.annual_limit ≤ c1state.user.annual_usage_count) ∧
      (c1state.user.annual_limit ≤ c1state.user.annual_usage_count →
        requestMatch 77 "mjw" true false (some "r1") (some "j1") c1state =
          ({ status := 402, errorCode := some "upgrade_required",
             bodyId := none, bodyStatus := none }, c1state, [])) ∧
      (c1state.user.annual_usage_count < c1state.user.annual_limit →
        (requestMatch 77 "mjw" true false (some "r1") (some "j1") c1state).2.1.user =
          incrementAnnualUsage 77 c1state.user)) :=
  ⟨rfl, rfl, claim_C1_amended 77 "mjw" (some "r1") (some "j1") c1state rfl rfl⟩

/-- C6 counterexample: a non-privileged caller under the limit (count 5
of 100) with an expired window requests a match against a nonexistent
resume; the request is answered 404 resume_not_found, no MatchJob row is
created, and the persisted count is 1 (window reset inside
incrementAnnualUsage), not the previous count increased by 1. -/
theorem claim_C6_counterexample :
    (requestMatch 40000000000 "mj6" true false (some "r9") (some "j9") c6state).1 =
      { status := 404, errorCode := some "resume_not_found",
        bodyId := none, bodyStatus := none } ∧
    c6state.user.annual_usage_count = 5 ∧
    c6state.user.annual_usage_count < c6state.user.annual_limit ∧
    (requestMatch 40000000000 "mj6" true false (some "r9") (some "j9")
        c6state).2.1.user.annual_usage_count = 1 ∧
    ¬ ((requestMatch 40000000000 "mj6" true false (some "r9") (some "j9")
        c6state).2.1.user.annual_usage_count =
          c6state.user.annual_usage_count + 1) ∧
    (requestMatch 40000000000 "mj6" true false (some "r9") (some "j9")
        c6state).2.1.matchJobs = [] := by
  decide

/-- C6 (amended): for every non-privileged request that passes the quota
gate, the caller row is updated by incrementAnnualUsage before the
existence and readiness checks run, so a request answered 404 or 409
still carries the usage update while creating no MatchJob row; the
persisted count is the previous count plus 1 while the 365-day window is
active, and 1 when annualPeriodStart was null or expired. -/
theorem claim_C6_amended (now : Int) (newId : String) (rid jid : Option String)
    (st : MatchState) (hr : jsTruthyStr rid = true) (hj : jsTruthyStr jid = true)
    (hq : st.user.annual_usage_count < st.user.annual_limit) :
    (requestMatch now newId true false rid jid st).2.1.user =
      incrementAnnualUsage now st.user ∧
    ((requestMatch now newId true false rid jid st).1.status = 404 ∨
     (requestMatch now newId true false rid jid st).1.status = 409 →
      (requestMatch now newId true false rid jid st).2.1.matchJobs = st.matchJobs) ∧
    (incrementAnnualUsage now st.user).annual_usage_count =
      (match st.user.annual_period_start with
       | none => 1
       | some s => if now - s > yearMs then 1 else st.user.annual_usage_count + 1) := by
  have hp := requestMatch_gate_pass now newId rid jid st hr hj hq
  refine ⟨hp.1, hp.2.2, ?_⟩
  rcases hs : st.user.annual_period_start with _ | s
  · simp [incrementAnnualUsage, hs]
  · by_cases hw : now - s > yearMs
    · simp [incrementAnnualUsage, hs, hw]
    · simp [incrementAnnualUsage, hs, hw]

/-- C6 witness: the amended claim applied at the under-limit
expired-window fixture, where the resume lookup fails. -/
theorem claim_C6_witness :
    jsTruthyStr (some "r9") = true ∧ jsTruthyStr (some "j9") = true ∧
    c6state.user.annual_usage_count < c6state.user.annual_limit ∧
    ((requestMatch 40000000000 "mj6" true false (some "r9") (some "j9") c6state).2.1.user =
        incrementAnnualUsage 40000000000 c6state.user ∧
      ((requestMatch 40000000000 "mj6" true false (some "r9") (some "j9") c6state).1.status = 404 ∨
       (requestMatch 40000000000 "mj6" true false (some "r9") (some "j9") c6state).1.status = 409 →
        (requestMatch 40000000000 "mj6" true false (some "r9") (some "j9") c6state).2.1.matchJobs =
          c6state.matchJobs) ∧
      (incrementAnnualUsage 40000000000 c6state.user).annual_usage_count =
        (match c6state.user.annual_period_start with
         | none => 1
         | some s => if (40000000000 : Int) - s > yearMs then 1
                     else c6state.user.annual_usage_count + 1)) :=
  ⟨rfl, rfl, by decide,
    claim_C6_amended 40000000000 "mj6" (some "r9") (some "j9") c6state rfl rfl (by decide)⟩

end Layer1
